import Mathlib

/-!
Shallow embedding of the credential-rotation and request-forwarding layer of a
local-hosted Riot-API gateway written in Python.  The embedded modules are
src/backend/riotapi/routes/_query.py, src/backend/riotapi/client/HttpxAsyncClient.py,
src/backend/riotapi/client/BaseClient.py, src/backend/riotapi/client/CredentialLoadBalancing.py,
src/backend/riotapi/inapp.py and the cached route functions of
src/backend/riotapi/routes/AccountV1.py.  Each definition carries a reference
to the source lines it translates.
-/

namespace RiotApi

/-- Modelled from the spec: the `CREDENTIALS` string-enum.  The static module
(src/static/static.py) that declares it is not part of the source dump; the
member names follow the credential families named by the spec
(FULL/LOL/LOR/TFT/VAL) and the lowercase string values follow the older
`CredentialName` enum in src/utils/static.py. -/
inductive CREDENTIALS where
  | FULL
  | LOL
  | LOR
  | TFT
  | VAL
deriving DecidableEq, Repr

/-- The string value of a `CREDENTIALS` member (a Python `StrEnum` member). -/
def CREDENTIALS.value : CREDENTIALS → String
  | .FULL => "full"
  | .LOL => "lol"
  | .LOR => "lor"
  | .TFT => "tft"
  | .VAL => "val"

/-- A Python value that can appear in the credentials list handled by
`_PatchCredential`: either an actual `CREDENTIALS` enum member, or a plain
string (for example a single character produced by `list()` applied to a
member, or a member-name string from `accept_paths["riot"]`). -/
inductive PyCred where
  | mem (c : CREDENTIALS)
  | raw (s : String)
deriving DecidableEq, Repr

/-- Python `isinstance(x, CREDENTIALS)`: true exactly for enum members; a plain
string is never an instance of the enum class, whatever its value. -/
def PyCred.isCredInstance : PyCred → Bool
  | .mem _ => true
  | .raw _ => false

/-- Python `==` between values appearing in the credential lists: two enum
members compare by identity, and a `StrEnum` member equals a plain string
exactly when the string equals the member's value. -/
def pyEq : PyCred → PyCred → Bool
  | .mem a, .mem b => a = b
  | .mem a, .raw s => a.value = s
  | .raw s, .mem a => s = a.value
  | .raw s, .raw t => s = t

/-- The Python exceptions that the embedded code can raise. -/
inductive PyError where
  | httpException (status : Nat) (detail : String)
  | typeError (msg : String)
  | keyError (key : String)
  | httpStatusError (status : Nat)
  | valueError (msg : String)
  | assertionError (msg : String)
  | attributeError (msg : String)
  | indexError
deriving DecidableEq, Repr

/-- Whether a `PyError` is the `fastapi.HTTPException` kind. -/
def PyError.isHttpException : PyError → Bool
  | .httpException _ _ => true
  | _ => false

/-- Python `list(credential)` applied to a single `StrEnum` member
(routes/_query.py line 56): it iterates the member's string value and yields
its characters as plain one-character strings. -/
def listOfSingleCred (c : CREDENTIALS) : List PyCred :=
  c.value.toList.map (fun ch => PyCred.raw (String.mk [ch]))

/-- The argument accepted by `_PatchCredential`: a single enum member or a
list (routes/_query.py lines 26-27). -/
inductive CredArg where
  | single (c : CREDENTIALS)
  | list (l : List PyCred)
deriving DecidableEq, Repr

/-- The `accept_paths` table of routes/_query.py lines 68-74.  The "riot" row
is `list(CREDENTIALS.__members__.keys())`, i.e. the member NAMES as plain
strings (uppercase), not the members themselves; the other rows hold actual
members. -/
def acceptPaths (entry : String) : Option (List PyCred) :=
  if entry = "riot" then
    some [.raw "FULL", .raw "LOL", .raw "LOR", .raw "TFT", .raw "VAL"]
  else if entry = "lol" then some [.mem .LOL, .mem .FULL]
  else if entry = "lor" then some [.mem .LOR, .mem .FULL]
  else if entry = "tft" then some [.mem .TFT, .mem .FULL]
  else if entry = "val" then some [.mem .VAL, .mem .FULL]
  else none

/-- The sort key of routes/_query.py line 83: `x.GetPriority()`.  The priority
table lives in the missing static module, so the priority of each member is a
parameter of the embedding.  On a plain string the attribute access
`GetPriority` would raise `AttributeError`; that case is guarded before the key
is ever used, and the 0 returned here is never observable. -/
def credKey (priority : CREDENTIALS → Nat) : PyCred → Nat
  | .mem c => priority c
  | .raw _ => 0

/-- The non-strict key order used by the sort at routes/_query.py line 83. -/
def credLE (priority : CREDENTIALS → Nat) (a b : PyCred) : Prop :=
  credKey priority a ≤ credKey priority b

instance credLE.instDecidableRel (p : CREDENTIALS → Nat) : DecidableRel (credLE p) :=
  fun a b => inferInstanceAs (Decidable (credKey p a ≤ credKey p b))

/-- Python `credentials.sort(key=lambda x: x.GetPriority(), reverse=False)`
(routes/_query.py line 83).  Python's sort is stable and ascending; a stable
ascending sort is extensionally unique, and `List.insertionSort` with the
non-strict key order computes exactly that result.  Computing the key of a
plain string raises `AttributeError` (strings have no `GetPriority`), and
Python's decorate-sort-undecorate evaluates the key of every element first. -/
def pySortByPriority (priority : CREDENTIALS → Nat) (l : List PyCred) :
    Except PyError (List PyCred) :=
  if l.all PyCred.isCredInstance then
    .ok (List.insertionSort (credLE priority) l)
  else
    .error (.attributeError "GetPriority")

/-- Python `endpoint.split(r'/')[0]` (routes/_query.py lines 67 and 75): the
first element of `str.split` on "/" is exactly the longest slash-free leading
segment of the string, modelled characterwise. -/
def firstPathSegment (s : String) : String :=
  String.mk (s.toList.takeWhile (fun ch => ch ≠ '/'))

/-- Translation of `_PatchCredential` (routes/_query.py lines 26-84), with the
priority table as a parameter.  Steps: a non-list argument goes through
`list(...)` (line 55-56); every element must be an enum member or
`HTTPException(500, "Invalid credential name")` is raised (lines 59-61); with
an endpoint, the first path segment selects a row of `accept_paths` (lines
66-77, unknown segment raising `HTTPException(500, ...)` at lines 79-81) and
the credentials are filtered by membership in that row (or replaced by the row
when `override` is set); finally the list is sorted by priority (line 83). -/
def _PatchCredential (priority : CREDENTIALS → Nat) (credentials : CredArg)
    (endpoint : Option String) (override : Bool) : Except PyError (List PyCred) :=
  let credList : List PyCred :=
    match credentials with
    | .list l => l
    | .single c => listOfSingleCred c
  if !(credList.all PyCred.isCredInstance) then
    .error (.httpException 500 "Invalid credential name")
  else
    match endpoint with
    | none => pySortByPriority priority credList
    | some ep =>
      let entryName := firstPathSegment ep
      match acceptPaths entryName with
      | none =>
        .error (.httpException 500
          "Either the endpoint is invalid, or non-registered/defined, or incorrect credential")
      | some accepted =>
        let surviving :=
          if !override then credList.filter (fun c => accepted.any (fun a => pyEq c a))
          else accepted
        pySortByPriority priority surviving

/-- An httpx response as seen by the embedded code: its status code, its
`text`, and the payload that `response.json()` parses. -/
structure HttpxResponse where
  status_code : Nat
  text : String
  jsonBody : String
deriving DecidableEq, Repr

/-- httpx `Response.is_success`: status in the 2xx range. -/
def HttpxResponse.is_success (r : HttpxResponse) : Bool :=
  200 ≤ r.status_code && r.status_code < 300

/-- httpx `Response.raise_for_status()`: returns the response when it is a
success and raises `HTTPStatusError` for every non-2xx status (informational,
redirect, client-error and server-error alike). -/
def raiseForStatus (r : HttpxResponse) : Except PyError HttpxResponse :=
  if r.is_success then .ok r else .error (.httpStatusError r.status_code)

/-- Models `await client.get(...)` for a pooled Riot client.  `GetRiotClient`
(client/HttpxAsyncClient.py lines 151-152) registers `_HttpxLogResponse` as the
response event hook, and that hook calls `response.raise_for_status()`
(line 48) before the response is handed back, so `client.get` itself raises
`HTTPStatusError` on every non-2xx upstream status.  The hook's header and
logging side effects are not modelled. -/
def clientGet (r : HttpxResponse) : Except PyError HttpxResponse :=
  match raiseForStatus r with
  | .error e => .error e
  | .ok resp => .ok resp

/-- Result of one attempt through `_QueryToRiotAPI`: the returned response (or
the exception that propagated) together with the client's in-flight counter
after the attempt. -/
structure AttemptResult where
  result : Except PyError HttpxResponse
  num_on_requests : Nat
deriving Repr

/-- Python `method.upper()` (routes/_query.py line 122), modelled
characterwise. -/
def pyUpper (s : String) : String :=
  String.mk (s.toList.map Char.toUpper)

/-- Translation of `_QueryToRiotAPI` (routes/_query.py lines 117-153) for a
client whose in-flight counter holds `n` and whose upstream would answer `r`.
The counter is incremented (line 121), the method is dispatched (lines
122-134, only GET is implemented and any other verb raises
`HTTPException(500, ...)`), and the counter is decremented (line 136).  There
is no try/finally: when `client.get` raises, the statements after it - the
decrement included - do not run.  Line 138 calls `raise_for_status` once more
after the decrement; the `usr_response` copying of lines 139-151 has no
bearing on the result and is not modelled. -/
def _QueryToRiotAPI (n : Nat) (method : String) (r : HttpxResponse) : AttemptResult :=
  let n1 := n + 1
  if pyUpper method = "GET" then
    match clientGet r with
    | .error e => { result := .error e, num_on_requests := n1 }
    | .ok resp =>
      let n2 := n1 - 1
      match raiseForStatus resp with
      | .error e => { result := .error e, num_on_requests := n2 }
      | .ok okResp => { result := .ok okResp, num_on_requests := n2 }
  else
    { result := .error (.httpException 500 "Invalid method sent to Riot API"),
      num_on_requests := n1 }

/-- One entry of the `errors` list built at routes/_query.py lines 173-174:
a dict with keys credential, status_code, headers and message (the headers are
not modelled).  `message` holds `response.text or response.json()`. -/
structure ErrorRecord where
  credential : PyCred
  status_code : Nat
  message : String
deriving DecidableEq, Repr

/-- The keys of the error dict built at line 173. -/
def errorRecordKeys : List String :=
  ["credential", "status_code", "headers", "message"]

/-- Python subscript `err[k]` on an error record, as a string rendering: the
four recorded keys succeed, any other key is absent (so the subscript raises
`KeyError`).  In particular `err["text"]` is `none`: the loop at line 188 uses
the key "text" although the value was recorded under "message". -/
def ErrorRecord.subscript (e : ErrorRecord) (k : String) : Option String :=
  if k = "credential" then some (match e.credential with
    | .mem c => c.value
    | .raw s => s)
  else if k = "status_code" then some (toString e.status_code)
  else if k = "headers" then some ""
  else if k = "message" then some e.message
  else none

/-- Builds the error record of lines 173-174 for a credential and a response:
`response.text or response.json()` takes the text when it is non-empty and
falls back to the parsed json. -/
def mkErrorRecord (cred : PyCred) (r : HttpxResponse) : ErrorRecord :=
  { credential := cred
    status_code := r.status_code
    message := if r.text = "" then r.jsonBody else r.text }

/-- The sort key of routes/_query.py line 186:
`(divmod(x["status_code"], 100)[1], x["status_code"])`, i.e. the remainder of
the status code modulo 100 paired with the raw status code. -/
def errKey (e : ErrorRecord) : Nat × Nat :=
  (e.status_code % 100, e.status_code)

/-- Lexicographic comparison of the sort keys, which is how Python orders the
tuples produced by the key function. -/
def errLE (a b : ErrorRecord) : Prop :=
  (errKey a).1 < (errKey b).1 ∨ ((errKey a).1 = (errKey b).1 ∧ (errKey a).2 ≤ (errKey b).2)

instance errLE.instDecidableRel : DecidableRel errLE :=
  fun a b => inferInstanceAs (Decidable
    ((errKey a).1 < (errKey b).1 ∨ ((errKey a).1 = (errKey b).1 ∧ (errKey a).2 ≤ (errKey b).2)))

/-- Python `errors.sort(key=...)` at line 186: Python's stable ascending sort,
computed by insertion sort with the non-strict key order. -/
def sortErrors (errors : List ErrorRecord) : List ErrorRecord :=
  List.insertionSort errLE errors

/-- The loop body of routes/_query.py lines 187-194 over `errors[::-1]`.
Each iteration builds a log message whose f-string subscripts the record with
the key "text" (line 188); that key was never recorded (the value sits under
"message"), so the very first iteration raises `KeyError("text")`.  The rest
of the loop - logging each candidate and, at the last index, raising
`HTTPException` built from `errors[0]` - is translated but unreachable. -/
def surfaceLoop (sorted : List ErrorRecord) : List ErrorRecord → Nat →
    Except PyError (Option String)
  | [], _ => .ok none
  | err :: rest, idx =>
    match err.subscript "text" with
    | none => .error (.keyError "text")
    | some _ =>
      if idx = sorted.length - 1 then
        match sorted.head? with
        | some e0 => .error (.httpException e0.status_code
            ("Error on querying: " ++ e0.message))
        | none => .ok none
      else surfaceLoop sorted rest (idx + 1)

/-- Translation of routes/_query.py lines 184-196: when errors were recorded,
sort them by `(status_code % 100, status_code)` and run the surfacing loop
over the reversed list; with no recorded error, fall through to the final
`return None`. -/
def surfaceErrors (errors : List ErrorRecord) : Except PyError (Option String) :=
  if errors.isEmpty then .ok none
  else
    let sorted := sortErrors errors
    surfaceLoop sorted sorted.reverse 0

/-- The credential loop of `QueryToRiotAPI` (routes/_query.py lines 162-196),
given the already-patched credential list and the upstream behaviour
`respond` (what the upstream would answer for each credential).  Returns the
outcome together with the credentials for which an upstream HTTP call was
issued, in order.  Each iteration obtains the pooled client and calls
`_QueryToRiotAPI`; an exception raised there propagates out of the loop
(there is no try/except around the await).  On a returned response the status
is classified: 2xx returns `response.json()` at once, 1xx continues, 3xx is
not recorded, any other status is recorded as an error candidate, and the 429
and 405 branches merely log before the loop continues anyway. -/
def forwardRotationLoop (respond : PyCred → HttpxResponse) :
    List PyCred → List ErrorRecord → List PyCred →
    (Except PyError (Option String)) × List PyCred
  | [], errors, attempts => (surfaceErrors errors, attempts.reverse)
  | cred :: rest, errors, attempts =>
    let r := respond cred
    match (_QueryToRiotAPI 0 "GET" r).result with
    | .error e => (.error e, (cred :: attempts).reverse)
    | .ok response =>
      let status := response.status_code
      if status / 100 = 2 then (.ok (some response.jsonBody), (cred :: attempts).reverse)
      else if status / 100 = 1 then forwardRotationLoop respond rest errors (cred :: attempts)
      else
        let errors2 :=
          if status / 100 ≠ 3 then errors ++ [mkErrorRecord cred response] else errors
        forwardRotationLoop respond rest errors2 (cred :: attempts)

/-- The loop of lines 162-196 started with an empty error list, as
`QueryToRiotAPI` would run it on an already-patched credential list. -/
def forwardWithCredentials (respond : PyCred → HttpxResponse) (creds : List PyCred) :
    (Except PyError (Option String)) × List PyCred :=
  forwardRotationLoop respond creds [] []

/-- The formal parameter names of `_PatchCredential` (routes/_query.py
lines 26-27). -/
def patchCredentialParams : List String :=
  ["credentials", "endpoint", "override"]

/-- The keyword names used at the call site, routes/_query.py line 161:
`_PatchCredential(credentials, path_endpoint=endpoint, override_credential=override_credential)`. -/
def patchCredentialCallKeywords : List String :=
  ["path_endpoint", "override_credential"]

/-- Translation of `QueryToRiotAPI` (routes/_query.py lines 156-196).  Python
binds the keyword arguments of the call at line 161 against the formal
parameters of `_PatchCredential`; the keywords `path_endpoint` and
`override_credential` match no formal parameter (they are named `endpoint` and
`override`), so the call raises `TypeError` before `_PatchCredential` runs,
for every input.  The branch taken when every keyword binds is the intended
composition of `_PatchCredential` with the credential loop; it is translated
but unreachable. -/
def QueryToRiotAPI (priority : CREDENTIALS → Nat) (respond : PyCred → HttpxResponse)
    (credentials : CredArg) (endpoint : Option String) (override : Bool) :
    (Except PyError (Option String)) × List PyCred :=
  if patchCredentialCallKeywords.all (fun k => k ∈ patchCredentialParams) then
    match _PatchCredential priority credentials endpoint override with
    | .error e => (.error e, [])
    | .ok creds => forwardWithCredentials respond creds
  else
    (.error (.typeError "unexpected keyword argument path_endpoint"), [])

/-- A pooled upstream client as the sweep sees it: whether its transport is
already closed, and its in-flight request counter. -/
structure PooledClient where
  is_closed : Bool
  num_on_requests : Nat
deriving DecidableEq, Repr

/-- One entry of the client pool `_POOL` of client/BaseClient.py line 11:
a client keyed by (region, credential_name). -/
structure PoolEntry where
  region : String
  credential_name : String
  client : PooledClient
deriving DecidableEq, Repr

/-- The pool key of an entry. -/
def poolKey (e : PoolEntry) : String × String :=
  (e.region, e.credential_name)

/-- The cleanup_list built by `CleanUpPool` (client/HttpxAsyncClient.py lines
82-98): the keys of the clients whose transport is already closed (line 84)
or whose in-flight counter is exactly 0 (line 90).  A client with a positive
counter is only logged (line 98) and lands on no list. -/
def cleanupKeys (pool : List PoolEntry) : List (String × String) :=
  (pool.filter (fun e => e.client.is_closed || e.client.num_on_requests == 0)).map poolKey

/-- The keys of the clients that the sweep actually closes (lines 93-96):
those not yet closed whose counter is 0; already-closed clients are only
evicted and positive-counter clients are skipped. -/
def sweepClosedKeys (pool : List PoolEntry) : List (String × String) :=
  (pool.filter (fun e => !e.client.is_closed && e.client.num_on_requests == 0)).map poolKey

/-- Translation of `CleanUpPool` (client/HttpxAsyncClient.py lines 80-103):
after the iteration, every key on the cleanup list is popped from the pool
(lines 101-102, `BaseClient.RemoveFromPool`).  The `WrapCleanUpPool`
decorator (client/BaseClient.py lines 29-40) only adds logging - its
`_POOL.clear()` is commented out - so one sweep cycle is exactly this
function. -/
def CleanUpPool (pool : List PoolEntry) : List PoolEntry :=
  pool.filter (fun e => decide (poolKey e ∉ cleanupKeys pool))

/-- Runs `n` consecutive sweep cycles. -/
def sweepIter : Nat → List PoolEntry → List PoolEntry
  | 0, pool => pool
  | n + 1, pool => sweepIter n (CleanUpPool pool)

/-- One entry of a `cachetools` TTL cache: a key, the cached value, and the
instant at which the entry expires. -/
structure CacheEntry (κ ν : Type) where
  key : κ
  value : ν
  expires : ℚ

/-- The state of one `ttl_cache`-decorated function: the live entries in
most-recently-used-first order, plus the number of times the wrapped function
has been invoked (each invocation is one upstream call for the route
functions of routes/AccountV1.py). -/
structure TtlCacheState (κ ν : Type) where
  entries : List (CacheEntry κ ν)
  calls : Nat

/-- A miss of the TTL cache (modelled from the external cachetools library,
used at routes/AccountV1.py lines 26, 34 and 42): the wrapped function is
invoked, expired entries and any stale entry for the key are dropped, the
fresh value is stored with expiry `now + ttl`, and the size is bounded by
`maxsize` with least-recently-used eviction. -/
def ttlMiss [DecidableEq κ] (f : κ → ν) (ttl : ℚ) (maxsize : Nat) (now : ℚ) (k : κ)
    (st : TtlCacheState κ ν) : ν × TtlCacheState κ ν :=
  let v := f k
  let alive := st.entries.filter (fun x => decide (x.key ≠ k) && decide (now < x.expires))
  (v, { entries := (({ key := k, value := v, expires := now + ttl } : CacheEntry κ ν) :: alive).take maxsize,
        calls := st.calls + 1 })

/-- One call of a `ttl_cache`-decorated function (modelled from the external
cachetools library): a hit requires an entry for the key that has not yet
expired (`timer() < expires`) and refreshes its recency; anything else is a
miss. -/
def ttlCall [DecidableEq κ] (f : κ → ν) (ttl : ℚ) (maxsize : Nat) (now : ℚ) (k : κ)
    (st : TtlCacheState κ ν) : ν × TtlCacheState κ ν :=
  match st.entries.find? (fun e => decide (e.key = k)) with
  | some e =>
    if now < e.expires then
      (e.value, { st with entries := e :: st.entries.filter (fun x => decide (x.key ≠ k)) })
    else
      ttlMiss f ttl maxsize now k st
  | none => ttlMiss f ttl maxsize now k st

/-- Runs a sequence of calls (instants paired with keys) against a
`ttl_cache`-decorated function, starting from a given cache state. -/
def ttlRun [DecidableEq κ] (f : κ → ν) (ttl : ℚ) (maxsize : Nat) :
    List (ℚ × κ) → TtlCacheState κ ν → TtlCacheState κ ν
  | [], st => st
  | (t, k) :: rest, st => ttlRun f ttl maxsize rest (ttlCall f ttl maxsize t k st).2

/-- Runs a sequence of calls against a freshly decorated function (empty
cache, no upstream call made yet). -/
def ttlRunFromEmpty [DecidableEq κ] (f : κ → ν) (ttl : ℚ) (maxsize : Nat)
    (l : List (ℚ × κ)) : TtlCacheState κ ν :=
  ttlRun f ttl maxsize l { entries := [], calls := 0 }

/-- The effective rate of one rate budget `(max_requests, time_in_second)`:
`max_requests / time_in_second`, as an exact rational.  CPython computes this
in floating point; the claims only involve values on which the two agree. -/
def loadRate (p : Nat × Nat) : ℚ :=
  (p.1 : ℚ) / (p.2 : ℚ)

/-- The non-strict order on rate budgets used by the sort inside
`GetMinLoad`. -/
def loadLE (a b : Nat × Nat) : Prop :=
  loadRate a ≤ loadRate b

instance loadLE.instDecidableRel : DecidableRel loadLE :=
  fun a b => inferInstanceAs (Decidable (loadRate a ≤ loadRate b))

/-- Translation of `CredentialItem.GetMinLoad` (client/CredentialLoadBalancing.py lines
16-18): sorts the loads ascending by rate (a stable ascending Python sort,
computed by insertion sort) and takes the first; an empty load list raises
`IndexError`.  `LoadBalance` only consumes the returned rate. -/
def GetMinLoadRate (loads : List (Nat × Nat)) : Except PyError ℚ :=
  match (List.insertionSort loadLE loads).head? with
  | some p => .ok (loadRate p)
  | none => .error .indexError

/-- Python built-in `round` to an integer: round-half-to-even. -/
def pythonRound (q : ℚ) : ℤ :=
  let f : ℤ := ⌊q⌋
  let r : ℚ := q - (f : ℚ)
  if r < 1 / 2 then f
  else if 1 / 2 < r then f + 1
  else if f % 2 = 0 then f else f + 1

/-- The state of `WeightedCredentialLoadBalancing` (client/
CredentialLoadBalancing.py lines 25-39): the credential dict in insertion
order (each name with the loads of its `CredentialItem`) and the scaler. -/
structure WeightedCredentialLoadBalancing where
  credentials : List (String × List (Nat × Nat))
  scaler : Nat
deriving DecidableEq, Repr

/-- Lines 44-50 of `LoadBalance`: the minimum load rate of every credential,
in dict order; the first `IndexError` (empty load list) propagates. -/
def minLoadRates : List (String × List (Nat × Nat)) → Except PyError (List ℚ)
  | [] => .ok []
  | c :: rest =>
    match GetMinLoadRate c.2 with
    | .error e => .error e
    | .ok r =>
      match minLoadRates rest with
      | .error e => .error e
      | .ok rs => .ok (r :: rs)

/-- Lines 52-55 of `LoadBalance`: the total of the minimum load rates is
taken first, then every rate is replaced by `round(load / total_load * 100)`. -/
def normalizedPercentages (creds : List (String × List (Nat × Nat))) :
    Except PyError (List ℤ) :=
  match minLoadRates creds with
  | .error e => .error e
  | .ok rates =>
    let total := rates.sum
    .ok (rates.map (fun l => pythonRound (l / total * 100)))

/-- The asserts of lines 56-58, applied to each percentage in order: the
value must be greater than 0 and at most 100 (it is an integer by
construction). -/
def checkPercentages : List ℤ → Except PyError Unit
  | [] => .ok ()
  | p :: rest =>
    if p ≤ 0 then
      .error (.assertionError "The minimum load rate must be greater than 0.")
    else if 100 < p then
      .error (.assertionError "The minimum load rate must be less than or equal to 100.")
    else checkPercentages rest

/-- The `lst_items` pool of lines 60-63: each credential name repeated
(its percentage times the scaler) times, concatenated in dict order. -/
def lstItemsOf (creds : List (String × List (Nat × Nat))) (ps : List ℤ) (scaler : Nat) :
    List String :=
  (((creds.map Prod.fst).zip ps).map
    (fun nr => List.replicate (nr.2.toNat * scaler) nr.1)).flatten

/-- Translation of `WeightedCredentialLoadBalancing.LoadBalance`
(client/CredentialLoadBalancing.py lines 41-64).  `draw` abstracts the seeded
`random.sample(lst_items, k=1)[0]` draw: the library guarantees the sample is
an element of the population (and raises `ValueError` on an empty
population), so the draw is modelled as an arbitrary index into `lst_items`
reduced modulo its length. -/
def LoadBalance (w : WeightedCredentialLoadBalancing) (draw : Nat) :
    Except PyError (String × List (Nat × Nat)) :=
  if w.credentials.isEmpty then .error (.valueError "No credentials are provided.")
  else
    match normalizedPercentages w.credentials with
    | .error e => .error e
    | .ok ps =>
      match checkPercentages ps with
      | .error e => .error e
      | .ok _ =>
        match (lstItemsOf w.credentials ps w.scaler).get?
            (draw % (lstItemsOf w.credentials ps w.scaler).length) with
        | none => .error (.valueError "Sample larger than population or is negative")
        | some name =>
          match w.credentials.find? (fun c => decide (c.1 = name)) with
          | some item => .ok item
          | none => .error (.keyError name)

/-- The per-router cache-scaling switches of `CustomAPIRouter.__init__`
(inapp.py lines 34-37), reloadable from the TOML profile (lines 48-51). -/
structure RouterScaleConfig where
  entry_scale : Bool
  entry_exponential_scale : Bool
  duration_scale : Bool
  duration_exponential_scale : Bool
deriving DecidableEq, Repr

/-- Translation of `CustomAPIRouter._scale` (inapp.py lines 53-63), with the
constants REGION_TTL_MULTIPLIER and CONTINENT_TTL_MULTIPLIER of the missing
static module as parameters: disabled scaling returns the unit unchanged;
otherwise the unit is multiplied by `max 1 multiplier`, raised to the power
`num_params` in exponential mode. -/
def _scale (regionMult contMult : Nat) (unit : Nat) (region_path : Bool)
    (num_params : Nat) (scale_mode : Bool) (exponential_mode : Bool) : Nat :=
  if !scale_mode then unit
  else
    let multiplier := max 1 (if region_path then regionMult else contMult)
    if !exponential_mode then unit * multiplier
    else unit * multiplier ^ num_params

/-- Translation of `CustomAPIRouter.scale` (inapp.py lines 65-69): the entry
dimension scales `maxsize` and the duration dimension scales `ttl`, each with
its own switches.  The `lru_cache` decorator memoizes a pure function and is
not modelled. -/
def scale (cfg : RouterScaleConfig) (regionMult contMult : Nat) (maxsize ttl : Nat)
    (region_path : Bool) (num_params : Nat) : Nat × Nat :=
  (_scale regionMult contMult maxsize region_path num_params
      cfg.entry_scale cfg.entry_exponential_scale,
   _scale regionMult contMult ttl region_path num_params
      cfg.duration_scale cfg.duration_exponential_scale)

deriving instance DecidableEq for Except

/-- A representative priority assignment for the demo instances: the
priorities of LOL, TFT and VAL are 3, 1 and 2 (the actual table lives in the
missing static module). -/
def prioDemo : CREDENTIALS → Nat
  | .LOL => 3
  | .TFT => 1
  | .VAL => 2
  | _ => 5

/-- A demo upstream that answers 200 with a fixed body to every request. -/
def respAllOk : PyCred → HttpxResponse :=
  fun _ => { status_code := 200, text := "", jsonBody := "body" }

/-- A demo 429 (rate-limited) upstream response. -/
def resp429 : HttpxResponse :=
  { status_code := 429, text := "rate limit exceeded", jsonBody := "{}" }

/-- A demo 200 upstream response carrying the second credential's body. -/
def resp200 : HttpxResponse :=
  { status_code := 200, text := "", jsonBody := "second-credential-body" }

/-- A demo 500 upstream response. -/
def resp500demo : HttpxResponse :=
  { status_code := 500, text := "upstream blew up", jsonBody := "{}" }

/-- A demo upstream for the rotation scenario: the first credential (LOL) is
always rate-limited with 429, every other credential answers 200. -/
def respRotationDemo : PyCred → HttpxResponse
  | .mem .LOL => resp429
  | _ => resp200

/-- Demo recorded error with status 503. -/
def err503 : ErrorRecord :=
  { credential := .mem .LOL, status_code := 503, message := "maintenance" }

/-- Demo recorded error with status 404. -/
def err404 : ErrorRecord :=
  { credential := .mem .TFT, status_code := 404, message := "not found" }

/-- Demo recorded error with status 500. -/
def err500 : ErrorRecord :=
  { credential := .mem .VAL, status_code := 500, message := "server error" }

/-- The recorded-error list of the claim scenario: statuses [503, 404, 500]. -/
def errsDemo : List ErrorRecord :=
  [err503, err404, err500]

/-- C8: with entry scaling enabled in exponential mode, duration scaling
enabled in non-exponential mode and continent multiplier 4, the
route-registration cache scaling returns maxsize 128 * 4 ^ 2 = 2048 and
ttl 300 * 4 = 1200 for scale(128, 300, region_path := false, num_params := 2);
and a disabled scaling dimension returns the corresponding input unchanged. -/
theorem claim_C8_scale_computation (cfg : RouterScaleConfig) (regionMult contMult : Nat)
    (hentry : cfg.entry_scale = true) (hentryExp : cfg.entry_exponential_scale = true)
    (hdur : cfg.duration_scale = true) (hdurExp : cfg.duration_exponential_scale = false)
    (hcont : contMult = 4) :
    scale cfg regionMult contMult 128 300 false 2 = (2048, 1200)
    ∧ (∀ (cfg2 : RouterScaleConfig) (rm cm maxsize ttl : Nat) (rp : Bool) (np : Nat),
        (cfg2.entry_scale = false → (scale cfg2 rm cm maxsize ttl rp np).1 = maxsize)
        ∧ (cfg2.duration_scale = false → (scale cfg2 rm cm maxsize ttl rp np).2 = ttl)) := by
  subst hcont
  constructor
  · simp [scale, _scale, hentry, hentryExp, hdur, hdurExp]
  · intro cfg2 rm cm maxsize ttl rp np
    constructor <;> intro h <;> simp [scale, _scale, h]

/-- Witness for C8 at a concrete configuration. -/
theorem claim_C8_witness :
    scale { entry_scale := true, entry_exponential_scale := true,
            duration_scale := true, duration_exponential_scale := false }
      2 4 128 300 false 2 = (2048, 1200) :=
  (claim_C8_scale_computation _ 2 4 rfl rfl rfl rfl rfl).1

/-- C9: `_PatchCredential` returns the eligible credentials sorted ascending
by priority rank, ties keeping the order in which the credentials were given
(Python's sort is stable); in particular a credential set with priorities
[3, 1, 2] comes back as the credentials with priorities [1, 2, 3]. -/
theorem claim_C9_patch_ordering :
    (∀ (priority : CREDENTIALS → Nat) (l : List CREDENTIALS),
      ∃ out, _PatchCredential priority (.list (l.map PyCred.mem)) none false = .ok out
        ∧ out.Perm (l.map PyCred.mem)
        ∧ out.Pairwise (credLE priority)
        ∧ (∀ a b : PyCred, credLE priority a b → [a, b].Sublist (l.map PyCred.mem) →
            [a, b].Sublist out))
    ∧ prioDemo .LOL = 3 ∧ prioDemo .TFT = 1 ∧ prioDemo .VAL = 2
    ∧ _PatchCredential prioDemo (.list [.mem .LOL, .mem .TFT, .mem .VAL]) none false
        = .ok [.mem .TFT, .mem .VAL, .mem .LOL]
    ∧ _PatchCredential prioDemo (.list [.mem .LOL, .mem .TFT, .mem .FULL])
        (some "lol/challenges") false = .ok [.mem .LOL, .mem .FULL] := by
  refine ⟨?_, rfl, rfl, rfl, rfl, rfl⟩
  intro priority l
  have hgate : ((l.map PyCred.mem).all PyCred.isCredInstance) = true := by
    simp [List.all_eq_true, PyCred.isCredInstance]
  refine ⟨List.insertionSort (credLE priority) (l.map PyCred.mem), ?_, ?_, ?_, ?_⟩
  · simp [_PatchCredential, pySortByPriority, hgate]
  · exact List.perm_insertionSort _ _
  · haveI : IsTotal PyCred (credLE priority) := ⟨fun a b => Nat.le_total _ _⟩
    haveI : IsTrans PyCred (credLE priority) := ⟨fun _ _ _ hab hbc => Nat.le_trans hab hbc⟩
    exact List.sorted_insertionSort _ _
  · intro a b hab hsub
    exact List.pair_sublist_insertionSort hab hsub

/-- Witness for C9: the sorted output exists for the demo input. -/
theorem claim_C9_witness :
    ∃ out, _PatchCredential prioDemo (.list ([CREDENTIALS.LOL].map PyCred.mem)) none false
        = .ok out
      ∧ out.Perm ([CREDENTIALS.LOL].map PyCred.mem)
      ∧ out.Pairwise (credLE prioDemo)
      ∧ (∀ a b : PyCred, credLE prioDemo a b → [a, b].Sublist ([CREDENTIALS.LOL].map PyCred.mem) →
          [a, b].Sublist out) :=
  claim_C9_patch_ordering.1 prioDemo [CREDENTIALS.LOL]

/-- C10 counterexample: a call of `QueryToRiotAPI` with a single enum value
raises `TypeError` at the `_PatchCredential` call site (mismatched keyword
names, line 161), not the claimed `HTTPException(500, "Invalid credential
name")`. -/
theorem claim_C10_counterexample :
    QueryToRiotAPI prioDemo respAllOk (.single .LOL) (some "lol/x") false
      = (.error (.typeError "unexpected keyword argument path_endpoint"), [])
    ∧ PyError.typeError "unexpected keyword argument path_endpoint"
        ≠ PyError.httpException 500 "Invalid credential name" := by
  exact ⟨rfl, by decide⟩

/-- C10 (amended): `_PatchCredential` itself, applied to a single CREDENTIALS
member, executes `list(credential)` - splitting the member's string value into
its characters, none of which is a CREDENTIALS instance - and raises
`HTTPException(500, "Invalid credential name")` before any upstream call; but
a call of `QueryToRiotAPI` never reaches it, raising `TypeError` at the call
site (keywords `path_endpoint` and `override_credential` match no formal
parameter) with no upstream call attempted either way. -/
theorem claim_C10_single_enum_value (priority : CREDENTIALS → Nat) (c : CREDENTIALS)
    (endpoint : Option String) (override : Bool) (respond : PyCred → HttpxResponse) :
    listOfSingleCred c ≠ []
    ∧ (listOfSingleCred c).all (fun x => !x.isCredInstance) = true
    ∧ _PatchCredential priority (.single c) endpoint override
        = .error (.httpException 500 "Invalid credential name")
    ∧ QueryToRiotAPI priority respond (.single c) endpoint override
        = (.error (.typeError "unexpected keyword argument path_endpoint"), []) := by
  refine ⟨?_, ?_, ?_, rfl⟩
  · cases c <;> simp [listOfSingleCred, CREDENTIALS.value]
  · cases c <;> rfl
  · cases c <;> rfl

/-- Witness for C10 at a concrete member. -/
theorem claim_C10_witness :
    listOfSingleCred .TFT ≠ []
    ∧ (listOfSingleCred .TFT).all (fun x => !x.isCredInstance) = true
    ∧ _PatchCredential prioDemo (.single .TFT) none false
        = .error (.httpException 500 "Invalid credential name")
    ∧ QueryToRiotAPI prioDemo respAllOk (.single .TFT) none false
        = (.error (.typeError "unexpected keyword argument path_endpoint"), []) :=
  claim_C10_single_enum_value prioDemo .TFT none false respAllOk

/-- C3 counterexample: with an eligible credential list that is empty from
the start, `QueryToRiotAPI` does not fail with an internal configuration
error: the call raises `TypeError` (keyword mismatch at line 161, not an
`HTTPException`), and the credential loop the code intends would return None
with no error; no upstream call happens either way. -/
theorem claim_C3_counterexample :
    _PatchCredential prioDemo (.list [.mem .TFT]) (some "lol/endpoint") false = .ok []
    ∧ forwardWithCredentials respAllOk [] = (.ok none, [])
    ∧ QueryToRiotAPI prioDemo respAllOk (.list [.mem .TFT]) (some "lol/endpoint") false
        = (.error (.typeError "unexpected keyword argument path_endpoint"), [])
    ∧ (PyError.typeError "unexpected keyword argument path_endpoint").isHttpException
        = false := by
  exact ⟨rfl, rfl, rfl, rfl⟩

/-- C3 (amended): `QueryToRiotAPI` performs no upstream HTTP call when the
eligible list is empty, but it does not raise a configuration error: every
call raises `TypeError` at the `_PatchCredential` call site; and even with
matching keywords, the loop over zero credentials falls through and the
function returns None with no error and no upstream call. -/
theorem claim_C3_empty_eligible :
    (∀ (priority : CREDENTIALS → Nat) (respond : PyCred → HttpxResponse)
        (credentials : CredArg) (endpoint : Option String) (override : Bool),
      QueryToRiotAPI priority respond credentials endpoint override
        = (.error (.typeError "unexpected keyword argument path_endpoint"), []))
    ∧ (∀ respond : PyCred → HttpxResponse, forwardWithCredentials respond [] = (.ok none, []))
    ∧ _PatchCredential prioDemo (.list [.mem .TFT]) (some "lol/endpoint") false = .ok [] := by
  exact ⟨fun _ _ _ _ _ => rfl, fun _ => rfl, rfl⟩

/-- C2: in the scenario where the first credential always gets 429 and the
second would get 200, the credential loop does not rotate: the response hook
`_HttpxLogResponse` calls `raise_for_status()` inside `client.get`, so the
first 429 raises `HTTPStatusError` that propagates out of the loop; only the
first credential is ever attempted and the second credential's body is never
returned. -/
theorem claim_C2_rotation_dead :
    forwardWithCredentials respRotationDemo [.mem .LOL, .mem .FULL]
      = (.error (.httpStatusError 429), [.mem .LOL])
    ∧ (_QueryToRiotAPI 0 "GET" resp429).result = .error (.httpStatusError 429)
    ∧ respRotationDemo (.mem .FULL) = resp200 ∧ resp200.jsonBody = "second-credential-body" := by
  exact ⟨rfl, rfl, rfl, rfl⟩

/-- C4 counterexample: an attempt whose HTTP call raises (here a 500 status,
which the response hook turns into `HTTPStatusError` inside `client.get`)
leaves the in-flight counter at 1 although it was 0 before the attempt. -/
theorem claim_C4_counterexample :
    (_QueryToRiotAPI 0 "GET" resp500demo).num_on_requests = 1
    ∧ (_QueryToRiotAPI 0 "GET" resp500demo).result = .error (.httpStatusError 500) := by
  exact ⟨rfl, rfl⟩

/-- C4 (amended): the counter is incremented before the call, but the
decrement is not exception-safe - it runs only when the call returns without
raising.  With the registered response hook only a 2xx response returns
normally, so a 2xx attempt restores the counter, while an attempt whose call
raises (any non-2xx status, or an invalid method) leaves it incremented. -/
theorem claim_C4_counter_balance (n : Nat) (r : HttpxResponse) :
    (r.is_success = true →
      _QueryToRiotAPI n "GET" r = { result := .ok r, num_on_requests := n })
    ∧ (r.is_success = false →
      _QueryToRiotAPI n "GET" r
        = { result := .error (.httpStatusError r.status_code), num_on_requests := n + 1 })
    ∧ (_QueryToRiotAPI n "POST" r).num_on_requests = n + 1 := by
  refine ⟨?_, ?_, rfl⟩
  · intro h
    simp [_QueryToRiotAPI, clientGet, raiseForStatus, h, pyUpper]
  · intro h
    simp [_QueryToRiotAPI, clientGet, raiseForStatus, h, pyUpper]

/-- Witness for C4 at concrete responses. -/
theorem claim_C4_witness :
    _QueryToRiotAPI 3 "GET" resp200 = { result := .ok resp200, num_on_requests := 3 }
    ∧ _QueryToRiotAPI 3 "GET" resp429
        = { result := .error (.httpStatusError 429), num_on_requests := 4 } :=
  ⟨(claim_C4_counter_balance 3 resp200).1 rfl, (claim_C4_counter_balance 3 resp429).2.1 rfl⟩

/-- C1 counterexample: for recorded statuses [503, 404, 500] the surfaced
outcome is not the 404 candidate: the sort by (status % 100, status) ranks
the 500 response first (its key (0, 500) is the minimum), and the surfacing
loop crashes with `KeyError("text")` before raising any `HTTPException`. -/
theorem claim_C1_counterexample :
    surfaceErrors errsDemo = .error (.keyError "text")
    ∧ (sortErrors errsDemo).head? = some err500
    ∧ err500.status_code = 500 ∧ err404.status_code = 404 := by
  exact ⟨rfl, rfl, rfl, rfl⟩

/-- C1 (amended): when errors were recorded, the code sorts them ascending by
(status_code % 100, status_code) - for [503, 404, 500] that ranks the 500
first, not the 404 - and the surfacing loop then raises `KeyError` on the
unrecorded key "text" (the value was stored under "message"), so the chosen
candidate is never thrown as the final HTTPException. -/
theorem claim_C1_exhaustion (errors : List ErrorRecord) (h : errors ≠ []) :
    surfaceErrors errors = .error (.keyError "text")
    ∧ sortErrors errsDemo = [err500, err503, err404] := by
  refine ⟨?_, rfl⟩
  unfold surfaceErrors
  rw [if_neg (by simpa [List.isEmpty_iff] using h)]
  have hlen : sortErrors errors ≠ [] := by
    have := List.length_insertionSort (r := errLE) errors
    intro hcon
    rw [sortErrors] at hcon
    rw [hcon] at this
    exact h (List.eq_nil_of_length_eq_zero this.symm)
  have hrevne : (sortErrors errors).reverse ≠ [] := by simpa using hlen
  obtain ⟨a, t, hrev⟩ := List.exists_cons_of_ne_nil hrevne
  show surfaceLoop (sortErrors errors) (sortErrors errors).reverse 0
      = Except.error (PyError.keyError "text")
  rw [hrev]
  rfl

/-- Witness for C1 at the demo error list. -/
theorem claim_C1_witness :
    surfaceErrors errsDemo = .error (.keyError "text")
    ∧ sortErrors errsDemo = [err500, err503, err404] :=
  claim_C1_exhaustion errsDemo (by decide)

theorem mem_cleanupKeys {pool : List PoolEntry} {k : String × String} :
    k ∈ cleanupKeys pool ↔ ∃ e, (e ∈ pool
      ∧ (e.client.is_closed || e.client.num_on_requests == 0) = true) ∧ poolKey e = k := by
  simp [cleanupKeys, List.mem_filter]

theorem mem_sweepClosedKeys {pool : List PoolEntry} {k : String × String} :
    k ∈ sweepClosedKeys pool ↔ ∃ e, (e ∈ pool
      ∧ (!e.client.is_closed && e.client.num_on_requests == 0) = true) ∧ poolKey e = k := by
  simp [sweepClosedKeys, List.mem_filter]

theorem cleanUpPool_mem_of_busy {pool : List PoolEntry} {e : PoolEntry}
    (hnd : (pool.map poolKey).Nodup) (he : e ∈ pool)
    (hcl : e.client.is_closed = false) (hn : 0 < e.client.num_on_requests) :
    e ∈ CleanUpPool pool := by
  rw [CleanUpPool, List.mem_filter]
  refine ⟨he, ?_⟩
  rw [decide_eq_true_eq]
  intro hk
  obtain ⟨e2, ⟨he2, hbad⟩, hkey⟩ := mem_cleanupKeys.mp hk
  have heq : e2 = e := List.inj_on_of_nodup_map hnd he2 he hkey
  subst heq
  rw [hcl] at hbad
  simp at hbad
  omega

theorem busy_key_not_closed {pool : List PoolEntry} {e : PoolEntry}
    (hnd : (pool.map poolKey).Nodup) (he : e ∈ pool)
    (hcl : e.client.is_closed = false) (hn : 0 < e.client.num_on_requests) :
    poolKey e ∉ sweepClosedKeys pool := by
  intro hk
  obtain ⟨e2, ⟨he2, hbad⟩, hkey⟩ := mem_sweepClosedKeys.mp hk
  have heq : e2 = e := List.inj_on_of_nodup_map hnd he2 he hkey
  subst heq
  rw [hcl] at hbad
  simp at hbad
  omega

theorem cleanUpPool_nodup {pool : List PoolEntry} (hnd : (pool.map poolKey).Nodup) :
    ((CleanUpPool pool).map poolKey).Nodup :=
  List.Sublist.nodup (List.Sublist.map poolKey (List.filter_sublist pool)) hnd

theorem sweepIter_keeps : ∀ (n : Nat) (pool : List PoolEntry) (e : PoolEntry),
    (pool.map poolKey).Nodup → e ∈ pool → e.client.is_closed = false →
    0 < e.client.num_on_requests →
    e ∈ sweepIter n pool ∧ ((sweepIter n pool).map poolKey).Nodup
  | 0, _, _ => fun hnd he _ _ => ⟨he, hnd⟩
  | n + 1, pool, e => fun hnd he hcl hn =>
      sweepIter_keeps n (CleanUpPool pool) e (cleanUpPool_nodup hnd)
        (cleanUpPool_mem_of_busy hnd he hcl hn) hcl hn

/-- C5: for every pool state with distinct keys and any number of consecutive
sweep cycles, a client with positive in-flight counter is never closed and
never evicted by `CleanUpPool`; a client whose transport is already closed or
whose counter is exactly 0 is evicted, and an open idle client (counter 0) is
among the ones the sweep closes. -/
theorem claim_C5_sweep_safety :
    (∀ (pool : List PoolEntry) (e : PoolEntry) (n : Nat),
        (pool.map poolKey).Nodup → e ∈ pool → e.client.is_closed = false →
        0 < e.client.num_on_requests →
        e ∈ sweepIter n pool ∧ poolKey e ∉ sweepClosedKeys (sweepIter n pool))
    ∧ (∀ (pool : List PoolEntry) (e : PoolEntry), e ∈ pool →
        e.client.is_closed = true ∨ e.client.num_on_requests = 0 →
        e ∉ CleanUpPool pool)
    ∧ (∀ (pool : List PoolEntry) (e : PoolEntry), e ∈ pool →
        e.client.is_closed = false → e.client.num_on_requests = 0 →
        poolKey e ∈ sweepClosedKeys pool) := by
  refine ⟨?_, ?_, ?_⟩
  · intro pool e n hnd he hcl hn
    obtain ⟨hmem, hnd2⟩ := sweepIter_keeps n pool e hnd he hcl hn
    exact ⟨hmem, busy_key_not_closed hnd2 hmem hcl hn⟩
  · intro pool e he hbad hmem
    rw [CleanUpPool, List.mem_filter, decide_eq_true_eq] at hmem
    refine hmem.2 (mem_cleanupKeys.mpr ⟨e, ⟨he, ?_⟩, rfl⟩)
    rcases hbad with h | h
    · simp [h]
    · simp [h]
  · intro pool e he hcl hz
    exact mem_sweepClosedKeys.mpr ⟨e, ⟨he, by simp [hcl, hz]⟩, rfl⟩

/-- A demo pooled client with two requests in flight. -/
def entryBusy : PoolEntry :=
  { region := "asia", credential_name := "lol",
    client := { is_closed := false, num_on_requests := 2 } }

/-- Witness for C5: the busy demo client survives three sweep cycles and is
never closed. -/
theorem claim_C5_witness :
    entryBusy ∈ sweepIter 3 [entryBusy]
    ∧ poolKey entryBusy ∉ sweepClosedKeys (sweepIter 3 [entryBusy]) :=
  claim_C5_sweep_safety.1 [entryBusy] entryBusy 3 (by decide) (by decide) (by decide) (by decide)

/-- C6: a `ttl_cache`-decorated function called twice with the same key
within the TTL window invokes the wrapped function (one upstream call) exactly
once, and a third call with the same key at or after expiry invokes it a
second time. -/
theorem claim_C6_cache_hit {κ ν : Type} [DecidableEq κ] (f : κ → ν) (ttl : ℚ)
    (maxsize : Nat) (t1 t2 t3 : ℚ) (k : κ)
    (hms : 0 < maxsize) (h2 : t2 < t1 + ttl) (h3 : t1 + ttl ≤ t3) :
    (ttlRunFromEmpty f ttl maxsize [(t1, k), (t2, k)]).calls = 1
    ∧ (ttlRunFromEmpty f ttl maxsize [(t1, k), (t2, k), (t3, k)]).calls = 2 := by
  obtain ⟨m, rfl⟩ := Nat.exists_eq_succ_of_ne_zero (Nat.pos_iff_ne_zero.mp hms)
  have h3' : ¬ (t3 < t1 + ttl) := not_lt.mpr h3
  constructor
  · simp [ttlRunFromEmpty, ttlRun, ttlCall, ttlMiss, h2]
  · simp [ttlRunFromEmpty, ttlRun, ttlCall, ttlMiss, h2, h3']

/-- Witness for C6 with the AccountV1 base parameters (maxsize 128, ttl 300):
calls at instants 0 and 10 hit the cache once, a third call at 300 misses. -/
theorem claim_C6_witness :
    (ttlRunFromEmpty (fun _ : String × Option String × String => resp200) 300 128
        [(0, ("puuid", none, "pat")), (10, ("puuid", none, "pat"))]).calls = 1
    ∧ (ttlRunFromEmpty (fun _ : String × Option String × String => resp200) 300 128
        [(0, ("puuid", none, "pat")), (10, ("puuid", none, "pat")),
         (300, ("puuid", none, "pat"))]).calls = 2 :=
  claim_C6_cache_hit (fun _ => resp200) 300 128 0 10 300 ("puuid", none, "pat")
    (by norm_num) (by norm_num) (by norm_num)

theorem pythonRound_high (q : ℚ) (f : ℤ) (h1 : ⌊q⌋ = f) (h2 : 1 / 2 < q - (f : ℚ)) :
    pythonRound q = f + 1 := by
  simp only [pythonRound]
  rw [h1, if_neg (by linarith), if_pos h2]

theorem pythonRound_low (q : ℚ) (f : ℤ) (h1 : ⌊q⌋ = f) (h2 : q - (f : ℚ) < 1 / 2) :
    pythonRound q = f := by
  simp only [pythonRound]
  rw [h1, if_pos h2]

theorem get?_replicate_of_lt {α : Type} (a : α) : ∀ {n i : Nat}, i < n →
    (List.replicate n a).get? i = some a := by
  intro n
  induction n with
  | zero => intro i h; omega
  | succ n ih =>
    intro i h
    cases i with
    | zero => rfl
    | succ i => exact ih (by omega)

/-- The three-credential demo of the claim scenario: minimum rates 1, 1 and 4
requests per second. -/
def credsDemo3 : List (String × List (Nat × Nat)) :=
  [("a", [(1, 1)]), ("b", [(1, 1)]), ("c", [(4, 1)])]

/-- A two-credential demo with strongly skewed rates 1 and 201. -/
def credsDemo2 : List (String × List (Nat × Nat)) :=
  [("a", [(1, 1)]), ("b", [(201, 1)])]

/-- C7 counterexample: the normalized integer percentages do not sum to at
most 100 - for minimum rates [1, 1, 4] they are [17, 17, 67], summing to 101 -
and they are not guaranteed in [1, 100]: for rates [1, 201] the first
percentage rounds to 0 and `LoadBalance` dies on its own assert instead of
returning a credential. -/
theorem claim_C7_counterexample :
    normalizedPercentages credsDemo3 = .ok [17, 17, 67]
    ∧ (17 : ℤ) + 17 + 67 = 101 ∧ (100 : ℤ) < 101
    ∧ LoadBalance { credentials := credsDemo2, scaler := 10 } 0
        = .error (.assertionError "The minimum load rate must be greater than 0.") := by
  have hr1 : loadRate (1, 1) = 1 := by norm_num [loadRate]
  have hr4 : loadRate (4, 1) = 4 := by norm_num [loadRate]
  have hr201 : loadRate (201, 1) = 201 := by norm_num [loadRate]
  have e17 : (1 : ℚ) / 6 * 100 = 50 / 3 := by norm_num
  have e67 : (4 : ℚ) / 6 * 100 = 200 / 3 := by norm_num
  have e0 : (1 : ℚ) / 202 * 100 = 50 / 101 := by norm_num
  have e100 : (201 : ℚ) / 202 * 100 = 10050 / 101 := by norm_num
  have round17 : pythonRound ((50 : ℚ) / 3) = 17 := by
    have hf : ⌊(50 : ℚ) / 3⌋ = 16 := by
      rw [Int.floor_eq_iff] <;> norm_num
    rw [pythonRound_high ((50 : ℚ) / 3) 16 hf (by norm_num)]
    norm_num
  have round67 : pythonRound ((200 : ℚ) / 3) = 67 := by
    have hf : ⌊(200 : ℚ) / 3⌋ = 66 := by
      rw [Int.floor_eq_iff] <;> norm_num
    rw [pythonRound_high ((200 : ℚ) / 3) 66 hf (by norm_num)]
    norm_num
  have hmin3 : minLoadRates credsDemo3 = .ok [1, 1, 4] := by
    have hraw : minLoadRates credsDemo3
        = .ok [loadRate (1, 1), loadRate (1, 1), loadRate (4, 1)] := rfl
    rw [hraw, hr1, hr4]
  have hsum3 : ([1, 1, 4] : List ℚ).sum = 6 := by norm_num
  have hnorm3 : normalizedPercentages credsDemo3 = .ok [17, 17, 67] := by
    simp only [normalizedPercentages, hmin3, hsum3, List.map_cons, List.map_nil,
      e17, e67, round17, round67]
  have round0 : pythonRound ((50 : ℚ) / 101) = 0 := by
    have hf : ⌊(50 : ℚ) / 101⌋ = 0 := by
      rw [Int.floor_eq_iff] <;> norm_num
    exact pythonRound_low ((50 : ℚ) / 101) 0 hf (by norm_num)
  have round100 : pythonRound ((10050 : ℚ) / 101) = 100 := by
    have hf : ⌊(10050 : ℚ) / 101⌋ = 99 := by
      rw [Int.floor_eq_iff] <;> norm_num
    rw [pythonRound_high ((10050 : ℚ) / 101) 99 hf (by norm_num)]
    norm_num
  have hmin2 : minLoadRates credsDemo2 = .ok [1, 201] := by
    have hraw : minLoadRates credsDemo2 = .ok [loadRate (1, 1), loadRate (201, 1)] := rfl
    rw [hraw, hr1, hr201]
  have hsum2 : ([1, 201] : List ℚ).sum = 202 := by norm_num
  have hnorm2 : normalizedPercentages credsDemo2 = .ok [0, 100] := by
    simp only [normalizedPercentages, hmin2, hsum2, List.map_cons, List.map_nil,
      e0, e100, round0, round100]
  refine ⟨hnorm3, by norm_num, by norm_num, ?_⟩
  simp [LoadBalance, hnorm2, checkPercentages, show credsDemo2.isEmpty = false from rfl]

theorem pythonRound_100 : pythonRound (100 : ℚ) = 100 := by
  have hf : ⌊(100 : ℚ)⌋ = 100 := by
    rw [Int.floor_eq_iff] <;> norm_num
  exact pythonRound_low 100 100 hf (by norm_num)

/-- C7 (amended): any successfully returned credential is present in the
input set, a single configured credential (with positive rate budgets and a
positive scaler) is always returned, and an empty credential dict raises
`ValueError`; but the normalized percentages are only asserted to lie in
(0, 100] - an assert that skewed inputs violate - and their sum can exceed
100 (see the counterexample). -/
theorem claim_C7_load_balance :
    (∀ (w : WeightedCredentialLoadBalancing) (draw : Nat)
        (item : String × List (Nat × Nat)),
      LoadBalance w draw = .ok item → item ∈ w.credentials)
    ∧ (∀ (name : String) (loads : List (Nat × Nat)) (scaler draw : Nat),
        0 < scaler → loads ≠ [] → (∀ p ∈ loads, 0 < p.1 ∧ 0 < p.2) →
        LoadBalance { credentials := [(name, loads)], scaler := scaler } draw
          = .ok (name, loads))
    ∧ (∀ scaler draw : Nat, LoadBalance { credentials := [], scaler := scaler } draw
        = .error (.valueError "No credentials are provided.")) := by
  refine ⟨?_, ?_, fun _ _ => rfl⟩
  · intro w draw item h
    unfold LoadBalance at h
    split at h
    · exact absurd h (by simp)
    · split at h
      · exact absurd h (by simp)
      · split at h
        · exact absurd h (by simp)
        · split at h
          · exact absurd h (by simp)
          · split at h
            · rename_i item0 hfind
              injection h with h2
              subst h2
              exact List.mem_of_find?_eq_some hfind
            · exact absurd h (by simp)
  · intro name loads scaler draw hsc hne hpos
    have hsne : List.insertionSort loadLE loads ≠ [] := by
      intro hc
      have hl := List.length_insertionSort (r := loadLE) loads
      rw [hc] at hl
      exact hne (List.eq_nil_of_length_eq_zero hl.symm)
    obtain ⟨p0, t, hp⟩ := List.exists_cons_of_ne_nil hsne
    have hp0mem : p0 ∈ loads := by
      have hm : p0 ∈ List.insertionSort loadLE loads := by
        rw [hp]; exact List.mem_cons_self _ _
      exact (List.perm_insertionSort loadLE loads).mem_iff.mp hm
    have hrpos : 0 < loadRate p0 := by
      have h1 : (0 : ℚ) < (p0.1 : ℚ) := by exact_mod_cast (hpos p0 hp0mem).1
      have h2 : (0 : ℚ) < (p0.2 : ℚ) := by exact_mod_cast (hpos p0 hp0mem).2
      exact div_pos h1 h2
    have hGet : GetMinLoadRate loads = .ok (loadRate p0) := by
      rw [GetMinLoadRate, hp]
      rfl
    have hmin : minLoadRates [(name, loads)] = .ok [loadRate p0] := by
      simp [minLoadRates, hGet]
    have harg : loadRate p0 / ([loadRate p0] : List ℚ).sum * 100 = 100 := by
      rw [List.sum_cons, List.sum_nil, add_zero, div_self (ne_of_gt hrpos), one_mul]
    have hnorm : normalizedPercentages [(name, loads)] = .ok [100] := by
      simp only [normalizedPercentages, hmin, List.map_cons, List.map_nil, harg,
        pythonRound_100]
    have hcheck : checkPercentages [100] = .ok () := rfl
    have hitems : lstItemsOf [(name, loads)] [100] scaler
        = List.replicate (100 * scaler) name := by
      simp [lstItemsOf]
    have hidx : draw % (100 * scaler) < 100 * scaler :=
      Nat.mod_lt _ (Nat.mul_pos (by norm_num) hsc)
    have hget : (List.replicate (100 * scaler) name).get?
        (draw % (List.replicate (100 * scaler) name).length) = some name := by
      rw [List.length_replicate]
      exact get?_replicate_of_lt name hidx
    have hfind : List.find? (fun c => decide (c.1 = name)) [(name, loads)]
        = some (name, loads) := by
      rw [List.find?_cons_of_pos]
      simp
    simp only [LoadBalance,
      show ([(name, loads)] : List (String × List (Nat × Nat))).isEmpty = false from rfl,
      hnorm, hcheck, hitems, hget, hfind]
    rfl

/-- Witness for C7: a single configured credential with two rate budgets is
always returned, whatever the draw. -/
theorem claim_C7_witness :
    LoadBalance { credentials := [("solo", [(20, 1), (100, 120)])], scaler := 10 } 123
      = .ok ("solo", [(20, 1), (100, 120)]) :=
  claim_C7_load_balance.2.1 "solo" [(20, 1), (100, 120)] 10 123 (by norm_num) (by decide)
    (by decide)

end RiotApi
